import Mathlib

/-!
Verification development for the reactive wiring of a single UI component
(src/src/app/app.component.ts). The component owns:

* a custom bounded interval observable, `customInterval$`: its subscribe
  callback allocates a local counter `timesExecuted := 0` and starts a
  repeating 2000 ms timer; on each tick, when `timesExecuted > 3` it clears
  the timer and calls `subscriber.complete()`, otherwise it logs the fixed
  string "Emitting new value...", calls `subscriber.next({message: "New value"})`
  and increments the counter. The subscribe callback returns no teardown
  logic, so unsubscribing does not clear the timer; a closed subscriber
  silently drops `next`/`complete` deliveries (RxJS semantics).
* a signal `clickCount = signal(0)` and `clickCount$ = toObservable(clickCount)`.
  The library call `toObservable` is modelled at the granularity the program
  uses it: subscribing delivers the current cell value, and each
  `clickCount.update` from a click (clicks being separate macro-tasks)
  delivers the new value to the open subscriber.
* `ngOnInit`, which subscribes to `customInterval$` with an observer that
  logs each value and logs "COMPLETED" on completion (the handle is NOT
  retained), subscribes to `clickCount$` with an observer that logs the
  current cell value (the handle IS retained in `subscription`), and
  registers with `destroyRef.onDestroy` a callback running
  `subscription.unsubscribe()`.
* `onClick`, which runs `clickCount.update(prev => prev + 1)`.

Time is discrete: one `tick` is one 2000 ms timer period. All functions are
total and executable; console activity is tracked by counters and lists.
-/

/-- Payload of each emission of the custom observable: `{message: "New value"}`. -/
structure Payload where
  message : String
deriving DecidableEq, Repr

/-- The fixed payload emitted by `subscriber.next({message: "New value"})`. -/
def payload : Payload := ⟨"New value"⟩

/-- An event delivered to a subscriber: a `next` value or a `complete` signal. -/
inductive Event where
  | next (v : Payload)
  | complete
deriving DecidableEq, Repr

/-- Whether an event is a `next` (value-carrying) emission. -/
def Event.isNext : Event → Bool
  | Event.next _ => true
  | Event.complete => false

/-- State of one subscription to `customInterval$`: the local counter
`timesExecuted`, whether the `setInterval` timer is still registered
(`timerActive`), whether the subscriber is closed (unsubscribed or stopped;
a closed subscriber drops deliveries), the ordered list of events actually
delivered to the subscriber, and the count of producer-side console writes
of "Emitting new value...". -/
structure CIState where
  timesExecuted : Nat
  timerActive : Bool
  closed : Bool
  received : List Event
  emitLog : Nat
deriving DecidableEq, Repr

/-- State right after `customInterval$.subscribe(...)`: fresh counter at 0,
timer started, subscriber open, nothing delivered or logged yet. -/
def ciInit : CIState := ⟨0, true, false, [], 0⟩

/-- One firing of the `setInterval` callback, translated branch for branch
from the source: if the timer was already cleared nothing happens; else if
`timesExecuted > 3`, clear the timer and deliver `complete` (dropped when the
subscriber is closed; completing also stops the subscriber); else log
"Emitting new value...", deliver `next payload` (dropped when closed) and
increment `timesExecuted`. -/
def ciTick (s : CIState) : CIState :=
  if s.timerActive = false then s
  else if s.timesExecuted > 3 then
    { s with timerActive := false,
             closed := true,
             received := if s.closed then s.received else s.received ++ [Event.complete] }
  else
    { s with emitLog := s.emitLog + 1,
             received := if s.closed then s.received else s.received ++ [Event.next payload],
             timesExecuted := s.timesExecuted + 1 }

/-- Unsubscribing closes the subscriber. The subscribe callback returned no
teardown logic, so the timer is NOT cleared here. -/
def ciUnsub (s : CIState) : CIState := { s with closed := true }

/-- Running `n` timer periods from a state. -/
def ciTickN : Nat → CIState → CIState
  | 0, s => s
  | n + 1, s => ciTick (ciTickN n s)

/-- Closed form of the state of a never-unsubscribed subscription after `n`
timer periods. -/
def ciRunState (n : Nat) : CIState :=
  if n ≤ 4 then ⟨n, true, false, List.replicate n (Event.next payload), n⟩
  else ⟨4, false, true, List.replicate 4 (Event.next payload) ++ [Event.complete], 4⟩

theorem ciTickN_succ_inner (n : Nat) (s : CIState) :
    ciTickN (n + 1) s = ciTickN n (ciTick s) := by
  induction n generalizing s with
  | zero => rfl
  | succ n ih =>
    show ciTick (ciTickN (n + 1) s) = ciTickN (n + 1) (ciTick s)
    rw [ih, ciTickN]

theorem ciRun_eq (n : Nat) : ciTickN n ciInit = ciRunState n := by
  induction n with
  | zero => decide
  | succ n ih =>
    show ciTick (ciTickN n ciInit) = ciRunState (n + 1)
    rw [ih]
    by_cases h3 : n ≤ 3
    · have hn4 : n ≤ 4 := Nat.le_succ_of_le h3
      have hs4 : n + 1 ≤ 4 := Nat.succ_le_succ h3
      simp only [ciRunState, if_pos hn4, if_pos hs4, ciTick]
      simp [Nat.not_lt.mpr h3, List.replicate_succ' (n := n)]
    · by_cases h4 : n ≤ 4
      · have hn : n = 4 := Nat.le_antisymm h4 (Nat.not_le.mp h3)
        subst hn
        decide
      · have h5 : ¬ n + 1 ≤ 4 := fun h => h4 (Nat.le_of_succ_le h)
        simp [ciRunState, if_neg h4, if_neg h5, ciTick, h3]

theorem ciClosedRun (k j : Nat) (hk : k ≤ 4) :
    ciTickN j (ciUnsub (ciTickN k ciInit)) =
      ⟨min (k + j) 4, decide (k + j ≤ 4), true,
       List.replicate k (Event.next payload), min (k + j) 4⟩ := by
  induction j with
  | zero =>
    show ciUnsub (ciTickN k ciInit) = _
    rw [ciRun_eq, ciRunState, if_pos hk]
    simp [ciUnsub, CIState.mk.injEq, hk]
  | succ j ih =>
    rw [ciTickN, ih]
    by_cases h1 : k + j ≤ 3
    · have ha : decide (k + j ≤ 4) ≠ false := by simp; omega
      have hb : ¬ min (k + j) 4 > 3 := by omega
      simp [ciTick, ha, hb, CIState.mk.injEq]
      omega
    · by_cases h2 : k + j ≤ 4
      · have he : k + j = 4 := by omega
        have ha : decide (k + j ≤ 4) ≠ false := by simp; omega
        have hb : min (k + j) 4 > 3 := by omega
        simp [ciTick, ha, hb, CIState.mk.injEq]
        omega
      · have ha : decide (k + j ≤ 4) = false := by simp; omega
        simp [ciTick, ha, CIState.mk.injEq]
        omega

/-- C1: a never-canceled subscription to `customInterval$` receives exactly 4
emissions, each with payload `{message: "New value"}`, within 4 timer periods
of subscribing, followed by exactly one completion signal, and no further
events after completion (for any number of further periods). -/
theorem customInterval_bounded (n : Nat) (h : 5 ≤ n) :
    (ciTickN n ciInit).received
        = List.replicate 4 (Event.next payload) ++ [Event.complete]
      ∧ (ciTickN 4 ciInit).received = List.replicate 4 (Event.next payload) := by
  constructor
  · rw [ciRun_eq, ciRunState, if_neg (by omega)]
  · decide

/-- Witness for C1 at n = 5. -/
theorem customInterval_bounded_witness :
    5 ≤ 5 ∧ ((ciTickN 5 ciInit).received
        = List.replicate 4 (Event.next payload) ++ [Event.complete]
      ∧ (ciTickN 4 ciInit).received = List.replicate 4 (Event.next payload)) :=
  ⟨by decide, customInterval_bounded 5 (by decide)⟩

/-- C3: canceling a fresh subscription to `customInterval$` before the first
timer tick means zero emissions are ever delivered to that subscriber, however
many periods later: the delivered-event list stays empty, so no observer-side
effect of an emission occurs. -/
theorem cancel_before_first_tick (n : Nat) :
    (ciTickN n (ciUnsub ciInit)).received = [] := by
  have h := ciClosedRun 0 n (by decide)
  simp only [ciTickN] at h
  rw [h]
  rfl

/-- C7: the per-tick contract of `customInterval$`. While the timer is active
and the subscriber open: a tick with counter at most 3 delivers the fixed
payload, increments the counter and keeps the timer running; a tick with
counter at least 4 stops the timer and delivers completion. A tick after the
timer was stopped changes nothing, and a tick after the subscriber canceled
delivers nothing to it. -/
theorem ciTick_contract (s : CIState) :
    (s.timerActive = true → s.closed = false → s.timesExecuted ≤ 3 →
        (ciTick s).received = s.received ++ [Event.next payload]
      ∧ (ciTick s).timesExecuted = s.timesExecuted + 1
      ∧ (ciTick s).timerActive = true)
  ∧ (s.timerActive = true → s.closed = false → 4 ≤ s.timesExecuted →
        (ciTick s).timerActive = false
      ∧ (ciTick s).received = s.received ++ [Event.complete])
  ∧ (s.timerActive = false → ciTick s = s)
  ∧ (s.closed = true → (ciTick s).received = s.received) := by
  refine ⟨?_, ?_, ?_, ?_⟩
  · intro h1 h2 h3
    simp [ciTick, h1, h2, Nat.not_lt.mpr h3]
  · intro h1 h2 h3
    have h4 : 3 < s.timesExecuted := by omega
    simp [ciTick, h1, h2, h4]
  · intro h1
    simp [ciTick, h1]
  · intro h1
    unfold ciTick
    split
    · rfl
    · split <;> simp [h1]

/-- Witness for C7, exercising each branch at a concrete state. -/
theorem ciTick_contract_witness :
    ((ciTick ciInit).received = ciInit.received ++ [Event.next payload]
      ∧ (ciTick ciInit).timesExecuted = ciInit.timesExecuted + 1
      ∧ (ciTick ciInit).timerActive = true)
  ∧ ((ciTick (ciTickN 4 ciInit)).timerActive = false
      ∧ (ciTick (ciTickN 4 ciInit)).received = (ciTickN 4 ciInit).received ++ [Event.complete])
  ∧ ciTick (ciTickN 5 ciInit) = ciTickN 5 ciInit
  ∧ (ciTick (ciUnsub ciInit)).received = (ciUnsub ciInit).received :=
  ⟨(ciTick_contract ciInit).1 rfl rfl (by decide),
   (ciTick_contract (ciTickN 4 ciInit)).2.1 (by decide) (by decide) (by decide),
   (ciTick_contract (ciTickN 5 ciInit)).2.2.1 (by decide),
   (ciTick_contract (ciUnsub ciInit)).2.2.2 rfl⟩

/-- C9: the subscribe callback returns no teardown logic, so unsubscribing
after `k` periods (before the stream completed on its own) does not clear the
timer: the producer keeps firing, performing its console write
"Emitting new value..." on each further period while the counter is at most 3
(the write count reaches `min (k + j) 4` after `j` further periods), the timer
stays registered exactly until the counter exceeds 3 (until `k + j = 5`), yet
the unsubscribed observer receives nothing further. -/
theorem unsub_no_teardown (k j : Nat) (hk : k ≤ 4) :
    (ciTickN j (ciUnsub (ciTickN k ciInit))).received = (ciTickN k ciInit).received
  ∧ (ciTickN j (ciUnsub (ciTickN k ciInit))).emitLog = min (k + j) 4
  ∧ (ciTickN j (ciUnsub (ciTickN k ciInit))).timerActive = decide (k + j ≤ 4) := by
  rw [ciClosedRun k j hk]
  refine ⟨?_, rfl, rfl⟩
  rw [ciRun_eq, ciRunState, if_pos hk]

/-- Witness for C9 at k = 2, j = 5. -/
theorem unsub_no_teardown_witness :
    2 ≤ 4 ∧
    ((ciTickN 5 (ciUnsub (ciTickN 2 ciInit))).received = (ciTickN 2 ciInit).received
  ∧ (ciTickN 5 (ciUnsub (ciTickN 2 ciInit))).emitLog = min (2 + 5) 4
  ∧ (ciTickN 5 (ciUnsub (ciTickN 2 ciInit))).timerActive = decide (2 + 5 ≤ 4)) :=
  ⟨by decide, unsub_no_teardown 2 5 (by decide)⟩

/-- One scheduling step for two independent subscriptions to
`customInterval$`: `true` fires the first subscription's timer, `false` the
second's. Each subscription has its own `timesExecuted` and timer, exactly as
the subscribe callback allocates them per call. -/
def stepPair (p : CIState × CIState) (b : Bool) : CIState × CIState :=
  if b then (ciTick p.1, p.2) else (p.1, ciTick p.2)

/-- Two subscriptions to `customInterval$`, both starting fresh, run under an
arbitrary interleaving of their timers. -/
def runPair (sched : List Bool) : CIState × CIState :=
  sched.foldl stepPair (ciInit, ciInit)

theorem runPair_foldl (sched : List Bool) (s1 s2 : CIState) :
    sched.foldl stepPair (s1, s2)
      = (ciTickN (sched.count true) s1, ciTickN (sched.count false) s2) := by
  induction sched generalizing s1 s2 with
  | nil => rfl
  | cons b t ih =>
    cases b
    · show List.foldl stepPair (stepPair (s1, s2) false) t = _
      rw [show stepPair (s1, s2) false = (s1, ciTick s2) from rfl, ih]
      simp [List.count_cons, ciTickN_succ_inner]
    · show List.foldl stepPair (stepPair (s1, s2) true) t = _
      rw [show stepPair (s1, s2) true = (ciTick s1, s2) from rfl, ih]
      simp [List.count_cons, ciTickN_succ_inner]

/-- An interleaving giving each of the two subscriptions five timer firings. -/
def twoSubSched : List Bool :=
  [true, false, true, false, true, false, true, false, true, false]

/-- C10: `customInterval$` is cold with per-subscription state: under any
interleaving of the two timers, each of two subscriptions evolves exactly as a
lone subscription run for its own number of ticks (neither affects the
other's counter), and each subscriber whose timer fired at least 5 times has
received the full sequence of 4 payloads followed by completion. -/
theorem cold_per_subscription (sched : List Bool) :
    (runPair sched).1 = ciTickN (sched.count true) ciInit
  ∧ (runPair sched).2 = ciTickN (sched.count false) ciInit
  ∧ (5 ≤ sched.count true →
      (runPair sched).1.received
        = List.replicate 4 (Event.next payload) ++ [Event.complete])
  ∧ (5 ≤ sched.count false →
      (runPair sched).2.received
        = List.replicate 4 (Event.next payload) ++ [Event.complete]) := by
  have h := runPair_foldl sched ciInit ciInit
  refine ⟨by rw [runPair, h], by rw [runPair, h], ?_, ?_⟩
  · intro h5
    rw [runPair, h]
    show (ciTickN (sched.count true) ciInit).received = _
    rw [ciRun_eq, ciRunState, if_neg (by omega)]
  · intro h5
    rw [runPair, h]
    show (ciTickN (sched.count false) ciInit).received = _
    rw [ciRun_eq, ciRunState, if_neg (by omega)]

/-- Witness for C10 on a concrete alternating schedule. -/
theorem cold_per_subscription_witness :
    5 ≤ twoSubSched.count true ∧ 5 ≤ twoSubSched.count false ∧
    (runPair twoSubSched).1.received
        = List.replicate 4 (Event.next payload) ++ [Event.complete] ∧
    (runPair twoSubSched).2.received
        = List.replicate 4 (Event.next payload) ++ [Event.complete] :=
  ⟨by decide, by decide,
   (cold_per_subscription twoSubSched).2.2.1 (by decide),
   (cold_per_subscription twoSubSched).2.2.2 (by decide)⟩

/-- State of the `AppComponent`: the `clickCount` signal cell; the state of
the `customInterval$` subscription made in `ngOnInit` (none before init; its
handle is not retained by the component); whether the retained `clickCount$`
bridge subscription is still open; the values delivered to the bridge
observer; the values the bridge observer logged by reading `clickCount()` at
delivery time; and how many times an `unsubscribe` call actually performed
its cancellation effect (RxJS `unsubscribe` returns immediately on an
already-closed subscription). -/
structure Comp where
  clickCount : Nat
  ci : Option CIState
  bridgeOpen : Bool
  bridgeReceived : List Nat
  bridgeLog : List Nat
  cancelCount : Nat
deriving DecidableEq, Repr

/-- Component state after construction, before `ngOnInit`: cell at 0, no
subscriptions. -/
def compStart : Comp := ⟨0, none, false, [], [], 0⟩

/-- The body of `ngOnInit`: subscribe to `customInterval$` (fresh state, the
returned handle is dropped), then subscribe to `clickCount$`, whose
subscriber immediately receives the current cell value and whose observer
logs the cell value; the teardown registration itself has no immediate
effect. -/
def Comp.ngOnInit (c : Comp) : Comp :=
  { c with ci := some ciInit,
           bridgeOpen := true,
           bridgeReceived := c.bridgeReceived ++ [c.clickCount],
           bridgeLog := c.bridgeLog ++ [c.clickCount] }

/-- The `onClick` handler: `clickCount.update(prev => prev + 1)`; the updated
value propagates through `toObservable` to the bridge subscriber when it is
still open, and the observer logs the (already updated) cell value. -/
def Comp.onClick (c : Comp) : Comp :=
  { c with clickCount := c.clickCount + 1,
           bridgeReceived :=
             if c.bridgeOpen then c.bridgeReceived ++ [c.clickCount + 1]
             else c.bridgeReceived,
           bridgeLog :=
             if c.bridgeOpen then c.bridgeLog ++ [c.clickCount + 1]
             else c.bridgeLog }

/-- The teardown callback registered with `destroyRef.onDestroy`: it runs
`subscription.unsubscribe()` on the retained bridge handle, and nothing else.
The cancellation effect is performed only when the subscription is still
open. -/
def Comp.runDestroy (c : Comp) : Comp :=
  if c.bridgeOpen then { c with bridgeOpen := false, cancelCount := c.cancelCount + 1 }
  else c

/-- One 2000 ms timer period elapsing for the component: the interval
subscription advances by one tick; nothing else in the component is
time-driven. -/
def Comp.tick (c : Comp) : Comp :=
  { c with ci := c.ci.map ciTick }

/-- Calling `onClick` `n` times. -/
def compClickN : Nat → Comp → Comp
  | 0, c => c
  | n + 1, c => Comp.onClick (compClickN n c)

/-- Letting `n` timer periods elapse. -/
def compTickN : Nat → Comp → Comp
  | 0, c => c
  | n + 1, c => Comp.tick (compTickN n c)

/-- Events delivered to the observer of the `customInterval$` subscription
(empty before init). -/
def Comp.ciReceived (c : Comp) : List Event :=
  match c.ci with
  | none => []
  | some s => s.received

/-- Count of producer-side "Emitting new value..." console writes. -/
def Comp.ciEmitLog (c : Comp) : Nat :=
  match c.ci with
  | none => 0
  | some s => s.emitLog

/-- Total number of value emissions delivered to the component's observers:
`next` events of the interval subscription plus bridge deliveries. -/
def Comp.emissionsDelivered (c : Comp) : Nat :=
  (Comp.ciReceived c).countP (fun e => Event.isNext e) + c.bridgeReceived.length

/-- Total number of console writes the program performed: the producer writes
one fixed line per emitting tick; the interval observer writes one line per
delivered event (the value for `next`, "COMPLETED" for `complete`); the
bridge observer writes one line per delivery. -/
def Comp.consoleWrites (c : Comp) : Nat :=
  Comp.ciEmitLog c + (Comp.ciReceived c).length + c.bridgeLog.length

theorem compClickN_open (N : Nat) :
    compClickN N (Comp.ngOnInit compStart)
      = ⟨N, some ciInit, true, List.range (N + 1), List.range (N + 1), 0⟩ := by
  induction N with
  | zero => decide
  | succ N ih =>
    show Comp.onClick (compClickN N (Comp.ngOnInit compStart)) = _
    rw [ih]
    simp [Comp.onClick, List.range_succ]

theorem compClickN_closed (M : Nat) (c : Comp) (h : c.bridgeOpen = false) :
    compClickN M c = { c with clickCount := c.clickCount + M } := by
  induction M with
  | zero => simp [compClickN]
  | succ M ih =>
    show Comp.onClick (compClickN M c) = _
    rw [ih]
    simp [Comp.onClick, h]
    omega

theorem compTickN_eq (j : Nat) (c : Comp) :
    compTickN j c = { c with ci := c.ci.map (ciTickN j) } := by
  induction j with
  | zero =>
    obtain ⟨a, ci, o, r, l, k⟩ := c
    cases ci <;> rfl
  | succ j ih =>
    show Comp.tick (compTickN j c) = _
    rw [ih]
    cases hc : c.ci <;> simp [Comp.tick, hc, ciTickN]

/-- C4: after `ngOnInit`, calling `onClick` N times leaves the `clickCount`
cell at exactly N, and the bridge subscriber has been delivered exactly the
initial emission plus N change emissions, namely the values 0, 1, ..., N. -/
theorem increment_n (N : Nat) :
    (compClickN N (Comp.ngOnInit compStart)).clickCount = N
  ∧ (compClickN N (Comp.ngOnInit compStart)).bridgeReceived = List.range (N + 1)
  ∧ (compClickN N (Comp.ngOnInit compStart)).bridgeReceived.length = N + 1 := by
  rw [compClickN_open N]
  exact ⟨rfl, rfl, by simp⟩

/-- C5: scenario init, then three clicks: the bridge subscriber immediately
received the cell's current value 0 at subscription, then one emission per
click; the logged sequence is exactly [0, 1, 2, 3] and reading the cell
yields 3. -/
theorem scenario_three_clicks :
    (compClickN 3 (Comp.ngOnInit compStart)).bridgeLog = [0, 1, 2, 3]
  ∧ (compClickN 3 (Comp.ngOnInit compStart)).bridgeReceived = [0, 1, 2, 3]
  ∧ (compClickN 3 (Comp.ngOnInit compStart)).clickCount = 3 := by decide

/-- C6: running the teardown callback twice equals running it once (all
functions are total, so no error can be raised), the second run performs no
further cancellation effect, one run performs the effect at most once, and
unsubscribing a subscription to `customInterval$` that is already closed
(canceled, or stopped because it completed on its own) changes nothing and
never disturbs what was delivered. -/
theorem unsubscribe_idempotent (c : Comp) (s : CIState) :
    Comp.runDestroy (Comp.runDestroy c) = Comp.runDestroy c
  ∧ (Comp.runDestroy (Comp.runDestroy c)).cancelCount = (Comp.runDestroy c).cancelCount
  ∧ (Comp.runDestroy c).cancelCount ≤ c.cancelCount + 1
  ∧ ciUnsub (ciUnsub s) = ciUnsub s
  ∧ (ciUnsub s).received = s.received := by
  have h1 : Comp.runDestroy (Comp.runDestroy c) = Comp.runDestroy c := by
    cases h : c.bridgeOpen <;> simp [Comp.runDestroy, h]
  refine ⟨h1, by rw [h1], ?_, rfl, rfl⟩
  cases h : c.bridgeOpen <;> simp [Comp.runDestroy, h]

/-- C2 (counterexample): the teardown callback cancels only the retained
bridge handle; the `customInterval$` subscription made in `ngOnInit` is not
retained and not canceled, so one timer period after teardown its observer is
delivered an emission, contradicting the claim that after teardown no stream
owned by the component delivers any further emission to its observer. -/
theorem teardown_misses_customInterval :
    Comp.ciReceived (Comp.runDestroy (Comp.ngOnInit compStart)) = []
  ∧ Comp.ciReceived (Comp.tick (Comp.runDestroy (Comp.ngOnInit compStart)))
      = [Event.next payload] := by decide

/-- Component state for the scenario: init, N clicks, teardown, M further
clicks, j timer periods. -/
def afterDestroy (N M j : Nat) : Comp :=
  compTickN j (compClickN M (Comp.runDestroy (compClickN N (Comp.ngOnInit compStart))))

/-- C2 (amended): the teardown callback cancels the one retained handle (the
`clickCount$` bridge subscription), exactly once, and afterwards the bridge
delivers no further emission however many clicks follow; the
`customInterval$` subscription, whose handle was never retained, is not
canceled by teardown: its observer keeps being delivered emissions exactly as
an untouched subscription, until the stream completes on its own. -/
theorem teardown_cancels_retained_only (N M j : Nat) :
    (afterDestroy N M j).bridgeOpen = false
  ∧ (afterDestroy N M j).bridgeReceived = List.range (N + 1)
  ∧ (afterDestroy N M j).clickCount = N + M
  ∧ (afterDestroy N M j).cancelCount = 1
  ∧ Comp.ciReceived (afterDestroy N M j) = (ciTickN j ciInit).received
  ∧ (5 ≤ j → Comp.ciReceived (afterDestroy N M j)
        = List.replicate 4 (Event.next payload) ++ [Event.complete]) := by
  have key : afterDestroy N M j
      = ⟨N + M, some (ciTickN j ciInit), false,
         List.range (N + 1), List.range (N + 1), 1⟩ := by
    unfold afterDestroy
    rw [compClickN_open N]
    have hd : Comp.runDestroy
        (⟨N, some ciInit, true, List.range (N + 1), List.range (N + 1), 0⟩ : Comp)
        = ⟨N, some ciInit, false, List.range (N + 1), List.range (N + 1), 1⟩ := by
      simp [Comp.runDestroy]
    rw [hd, compClickN_closed M _ rfl, compTickN_eq]
    rfl
  rw [key]
  refine ⟨rfl, rfl, rfl, rfl, rfl, ?_⟩
  intro h5
  show (ciTickN j ciInit).received = _
  rw [ciRun_eq, ciRunState, if_neg (by omega)]

/-- Witness for C2 (amended) at N = 1, M = 2, j = 5. -/
theorem teardown_cancels_retained_only_witness :
    (afterDestroy 1 2 5).bridgeOpen = false
  ∧ (afterDestroy 1 2 5).bridgeReceived = List.range (1 + 1)
  ∧ (afterDestroy 1 2 5).clickCount = 1 + 2
  ∧ (afterDestroy 1 2 5).cancelCount = 1
  ∧ Comp.ciReceived (afterDestroy 1 2 5) = (ciTickN 5 ciInit).received
  ∧ Comp.ciReceived (afterDestroy 1 2 5)
      = List.replicate 4 (Event.next payload) ++ [Event.complete] := by
  have h := teardown_cancels_retained_only 1 2 5
  exact ⟨h.1, h.2.1, h.2.2.1, h.2.2.2.1, h.2.2.2.2.1, h.2.2.2.2.2 (by decide)⟩

/-- C8 (counterexample): in the scenario init then 5 timer periods with no
clicks, the observers are delivered 5 emissions (the bridge initial value and
4 interval payloads) plus 1 completion, so the claimed write count is 6; the
program performs 10 console writes, because the producer additionally writes
the fixed line "Emitting new value..." on each emitting tick. -/
theorem console_per_emission_cex :
    Comp.consoleWrites (compTickN 5 (Comp.ngOnInit compStart)) = 10
  ∧ Comp.emissionsDelivered (compTickN 5 (Comp.ngOnInit compStart)) = 5
  ∧ Comp.consoleWrites (compTickN 5 (Comp.ngOnInit compStart))
      ≠ Comp.emissionsDelivered (compTickN 5 (Comp.ngOnInit compStart)) + 1 := by
  decide

theorem countP_isNext_replicate (m : Nat) :
    (List.replicate m (Event.next payload)).countP (fun e => Event.isNext e) = m := by
  induction m with
  | zero => rfl
  | succ m ih =>
    rw [List.replicate_succ, List.countP_cons, ih]
    rfl

/-- C8 (amended): the program writes to the console exactly one value-carrying
line per emission delivered to an observer, plus exactly one "COMPLETED" line
once the interval stream completes (5 or more periods), plus one fixed
"Emitting new value..." producer line per emitting tick of the interval
stream; the delivered emissions are the bridge initial value, one per click,
and one interval payload per emitting tick. No other outbound effect exists
in the model. -/
theorem console_writes_amended (N j : Nat) :
    Comp.consoleWrites (compTickN j (compClickN N (Comp.ngOnInit compStart)))
      = Comp.emissionsDelivered (compTickN j (compClickN N (Comp.ngOnInit compStart)))
        + (if 5 ≤ j then 1 else 0) + min j 4
  ∧ Comp.emissionsDelivered (compTickN j (compClickN N (Comp.ngOnInit compStart)))
      = (N + 1) + min j 4 := by
  have key : compTickN j (compClickN N (Comp.ngOnInit compStart))
      = ⟨N, some (ciTickN j ciInit), true,
         List.range (N + 1), List.range (N + 1), 0⟩ := by
    rw [compClickN_open N, compTickN_eq]
    rfl
  rw [key, ciRun_eq, ciRunState]
  by_cases h : j ≤ 4
  · have h5 : ¬ 5 ≤ j := by omega
    simp [if_pos h, if_neg h5, Comp.consoleWrites, Comp.emissionsDelivered,
          Comp.ciReceived, Comp.ciEmitLog, countP_isNext_replicate,
          Nat.min_eq_left h]
    omega
  · have h5 : 5 ≤ j := by omega
    have hm : min j 4 = 4 := by omega
    simp [if_neg h, if_pos h5, Comp.consoleWrites, Comp.emissionsDelivered,
          Comp.ciReceived, Comp.ciEmitLog, List.countP_append,
          countP_isNext_replicate, List.countP_cons, Event.isNext, hm]
    omega

